import Mathlib

/-!
Shallow embedding of `onnx_mxnet/import_onnx.py` (ONNX → MXNet importer).

The importer is a single ordered pass over an ONNX `GraphProto`: it decodes
initializers into parameters, renames graph inputs to canonical identifiers
(`input_N` / `param_N`), translates each node's operator and attributes, and
applies a handful of structural fix-ups (`_fix_bias`, `_fix_channels`,
`_fix_bias_shape`, `_fix_gemm`, `_fix_outputs`).

Modelling conventions:
- Python dicts are insertion-ordered association lists (`dinsert` replaces in
  place, otherwise appends, exactly like CPython dict assignment).
- Python exceptions are the `PyError` inductive; each constructor is one raise
  site of the source (the spec's error taxonomy names them), plus `keyError`,
  `indexError`, `typeError` for raw Python exceptions from unguarded dict /
  list accesses and conversions.
- MXNet symbols (`mx.sym.*`) are the small `Sym` inductive; only the symbol
  constructors the importer itself builds are modelled.
- Floating point attribute values are carried as `Rat`; every concrete value
  the importer's claims exercise (1.0, 2.0, ...) is exactly representable.
-/

deriving instance DecidableEq for Except

namespace OnnxMxnet

/-! ### Python-dict association lists (insertion ordered) -/

/-- Python dict lookup `d[k]` / `d.get(k)`: first binding of `k`. -/
def dlookup {β : Type} : List (String × β) → String → Option β
  | [], _ => none
  | (k1, v) :: rest, k => if k1 = k then some v else dlookup rest k

/-- Python `k in d`. -/
def dcontains {β : Type} (d : List (String × β)) (k : String) : Bool :=
  (dlookup d k).isSome

/-- Python dict assignment `d[k] = v`: replaces in place if the key exists,
otherwise appends (CPython insertion order). -/
def dinsert {β : Type} : List (String × β) → String → β → List (String × β)
  | [], k, v => [(k, v)]
  | (k1, v1) :: rest, k, v =>
    if k1 = k then (k, v) :: rest else (k1, v1) :: dinsert rest k v

/-- Python `d.pop(k)` (the removal part). -/
def dpop {β : Type} : List (String × β) → String → List (String × β)
  | [], _ => []
  | (k1, v1) :: rest, k => if k1 = k then rest else (k1, v1) :: dpop rest k

/-! ### Error taxonomy

Each constructor is a raise site in `import_onnx.py`; the names are the
spec's error taxonomy (section 7). -/

inductive PyError where
  /-- ValueError "Unable to get channels/units attr from onnx graph." (line 227) -/
  | missingWeightParameter
  /-- AssertionError "Weights shape is invalid" (line 230) -/
  | invalidWeightShape
  /-- AssertionError in `_fix_bias_shape` (lines 208 and 211) -/
  | invalidBiasShape
  /-- ValueError "Unexpected number of inputs" (line 201) -/
  | unexpectedInputArity
  /-- AssertionError "ONNX have two outputs for dropout layer." (line 187) -/
  | unexpectedOutputArity
  /-- AssertionError "Only one type of attr is allowed" (line 170) -/
  | duplicateAttributeType
  /-- ValueError "Cannot parse attribute" (line 179) -/
  | unparsableAttribute
  /-- NotImplementedError for tensor/graph valued attributes (lines 174, 177) -/
  | unsupportedAttributeKind
  /-- NotImplementedError "Operator {} not implemented." (line 51) -/
  | unsupportedOperator
  /-- RuntimeError "Unable to map op_name {} to sym" (line 54) -/
  | unknownTargetOperator
  /-- ValueError "Tensor's name is required." (line 89) -/
  | invalidTensorName
  /-- raw Python KeyError from an unguarded dict subscript -/
  | keyError
  /-- raw Python IndexError from an unguarded list subscript -/
  | indexError
  /-- raw Python TypeError from a builtin conversion -/
  | typeError
deriving Repr, DecidableEq

/-! ### Tensors, attribute values, symbols -/

/-- A tensor shape (`.shape` of an `mx.nd.array`). -/
abbrev Shape := List Nat

/-- An `mx.nd.array`; only its shape is relevant to the importer's logic
(`_parse_array` reshapes the decoded buffer to `tensor_proto.dims`). -/
structure NDArray where
  shape : Shape
deriving Repr, DecidableEq

/-- A parsed attribute value: scalar float/int/string, a homogeneous tuple of
those, or the values the fix-ups inject (`no_bias` booleans, channel counts). -/
inductive AttrValue where
  | float (q : Rat)
  | int (i : Int)
  | str (s : String)
  | floats (l : List Rat)
  | ints (l : List Int)
  | strs (l : List String)
  | bool (b : Bool)
  | nat (n : Nat)
deriving Repr, DecidableEq

/-- Attribute dictionary (Python dict of attribute name to value). -/
abbrev AttrMap := List (String × AttrValue)

/-- The MXNet symbols the importer itself constructs: `mx.sym.Variable`
(constructor `var`), `mx.sym.transpose`, and scalar multiplication
`alpha * sym`. -/
inductive Sym where
  | var (name : String) (shape : Option Shape)
  | transpose (s : Sym) (axes : List Nat)
  | mulScalar (a : Rat) (s : Sym)
deriving Repr, DecidableEq

/-- `sym.name`: variables carry their given name; other symbols get
auto-generated names that never collide with registered parameters,
modelled as `none`. -/
def sym_name : Sym → Option String
  | .var n _ => some n
  | _ => none

/-! ### ONNX protobuf messages (the fields the importer reads) -/

/-- `AttributeProto`: scalar fields are `Option` (protobuf `HasField`), list
fields are lists (`list(getattr(a, f))` is truthy iff nonempty); the
tensor/graph valued fields are only tested for presence, so they are
modelled as presence flags. -/
structure AttributeProto where
  name : String
  f : Option Rat := none
  i : Option Int := none
  s : Option String := none
  floats : List Rat := []
  ints : List Int := []
  strings : List String := []
  t : Bool := false
  g : Bool := false
  tensors : Bool := false
  graphs : Bool := false
deriving Repr, DecidableEq

/-- `NodeProto` (field `attrProtos` models `NodeProto.attribute`, which is a
Lean keyword). -/
structure NodeProto where
  op_type : String
  name : String
  input : List String
  output : List String
  attrProtos : List AttributeProto
deriving Repr, DecidableEq

/-- `TensorProto`: an initializer; the decoded data is irrelevant to the
importer's control flow, only `name` and `dims`. -/
structure TensorProto where
  name : String
  dims : Shape
deriving Repr, DecidableEq

/-- A named graph input/output declaration. -/
structure ValueInfo where
  name : String
deriving Repr, DecidableEq

/-- `GraphProto` (field `inits` models `graph.initializer`). -/
structure GraphProto where
  inits : List TensorProto
  input : List ValueInfo
  output : List ValueInfo
  node : List NodeProto
deriving Repr, DecidableEq

/-! ### `_parse_attr` (import_onnx.py lines 161-180) -/

/-- One scalar-field step of `_parse_attr`: `if a.HasField(f):
attrs[a.name] = getattr(a, f)` — an unconditional dict assignment. -/
def scalar_step (attrs : AttrMap) (name : String) (v : Option AttrValue) : AttrMap :=
  match v with
  | some x => dinsert attrs name x
  | none => attrs

/-- One list-field step of `_parse_attr`: `if list(getattr(a, f)):
assert a.name not in attrs; attrs[a.name] = tuple(...)`. -/
def list_step (attrs : AttrMap) (name : String) (v : Option AttrValue) :
    Except PyError AttrMap :=
  match v with
  | some x =>
    if dcontains attrs name then .error .duplicateAttributeType
    else .ok (dinsert attrs name x)
  | none => .ok attrs

/-- The body of `_parse_attr`'s loop for a single `AttributeProto`. -/
def parse_attr_one (attrs : AttrMap) (a : AttributeProto) : Except PyError AttrMap := do
  let attrs := scalar_step attrs a.name (a.f.map AttrValue.float)
  let attrs := scalar_step attrs a.name (a.i.map AttrValue.int)
  let attrs := scalar_step attrs a.name (a.s.map AttrValue.str)
  let attrs ← list_step attrs a.name
    (if a.floats.isEmpty then none else some (.floats a.floats))
  let attrs ← list_step attrs a.name
    (if a.ints.isEmpty then none else some (.ints a.ints))
  let attrs ← list_step attrs a.name
    (if a.strings.isEmpty then none else some (.strs a.strings))
  if a.t || a.g then .error .unsupportedAttributeKind
  else if a.tensors || a.graphs then .error .unsupportedAttributeKind
  else if dcontains attrs a.name then .ok attrs
  else .error .unparsableAttribute

/-- `_parse_attr`: fold the per-attribute body over the attribute list,
starting from the empty dict. -/
def parse_attr (l : List AttributeProto) : Except PyError AttrMap :=
  l.foldlM parse_attr_one []

/-! ### `_convert_operator` (import_onnx.py lines 21-55) -/

/-- A conversion-map entry: `attrs ↦ (new_op_name, new_attrs)`. -/
abbrev ConvertFn := AttrMap → String × AttrMap

/-- `_convert_operator`. `mxSym` lists the operator names the target module
`mx.sym` defines (`getattr(mx.sym, op_name, None)` is non-None exactly for
members); the function returns the resolved operator's name. -/
def convert_operator (mxSym : List String) (identity_list : List String)
    (convert_map : List (String × ConvertFn)) (op_name : String) (attrs : AttrMap) :
    Except PyError (String × AttrMap) :=
  let step : Except PyError (String × AttrMap) :=
    if op_name ∈ identity_list then .ok (op_name, attrs)
    else
      match dlookup convert_map op_name with
      | some fn => .ok (fn attrs)
      | none => .error .unsupportedOperator
  match step with
  | .error e => .error e
  | .ok (op2, attrs2) =>
    if op2 ∈ mxSym then .ok (op2, attrs2) else .error .unknownTargetOperator

/-! ### Builder state (`GraphProto.__init__`, import_onnx.py lines 61-66) -/

/-- The mutable instance state of the builder: Node Registry `nodes`,
Parameter Registry `params`, Canonical Identifier Map `renames`, and the
two per-category counters. -/
structure State where
  nodes : List (String × Sym)
  params : List (String × NDArray)
  renames : List (String × String)
  num_input : Nat
  num_param : Nat
deriving Repr, DecidableEq

/-- A freshly constructed builder: all maps empty, counters zero. -/
def init_state : State := ⟨[], [], [], 0, 0⟩

/-! ### `_fix_bias` (lines 191-202) and `_fix_outputs` (lines 182-189) -/

/-- The operator family `[mx.sym.Convolution, mx.sym.Deconvolution,
mx.sym.FullyConnected]` tested by `_fix_bias` and `_fix_channels`. -/
def conv_family : List String := ["Convolution", "Deconvolution", "FullyConnected"]

/-- `_fix_bias`: derive the `no_bias` attribute from the input count. -/
def fix_bias (op : String) (attrs : AttrMap) (num_inputs : Nat) :
    Except PyError AttrMap :=
  if op ∉ conv_family then .ok attrs
  else if num_inputs = 3 then .ok (dinsert attrs "no_bias" (.bool false))
  else if num_inputs = 2 then .ok (dinsert attrs "no_bias" (.bool true))
  else .error .unexpectedInputArity

/-- `_fix_outputs`: Dropout must declare exactly 2 outputs; drop the last
(`outputs[:-1]`). Other operators pass through. -/
def fix_outputs (op : String) (outputs : List String) :
    Except PyError (List String) :=
  if op = "Dropout" then
    if outputs.length = 2 then .ok outputs.dropLast
    else .error .unexpectedOutputArity
  else .ok outputs

/-! ### `_fix_channels` (lines 219-236) -/

/-- `_fix_channels`: infer `num_hidden` / `num_filter` from the second
input's weight shape. Note the code subscripts `self._renames[inputs[1]]`
directly (a raw KeyError when absent), unlike `_fix_bias_shape` which uses
`.get` with a fallback. -/
def fix_channels (renames : List (String × String)) (params : List (String × NDArray))
    (op : String) (attrs : AttrMap) (inputs : List String) : Except PyError AttrMap :=
  if op ∉ conv_family then .ok attrs
  else
    match inputs.get? 1 with
    | none => .error .indexError
    | some i1 =>
      match dlookup renames i1 with
      | none => .error .keyError
      | some weight_name =>
        match dlookup params weight_name with
        | none => .error .missingWeightParameter
        | some w =>
          match w.shape with
          | c :: _ :: _ =>
            .ok (dinsert attrs
              (if op = "FullyConnected" then "num_hidden" else "num_filter")
              (.nat c))
          | _ => .error .invalidWeightShape

/-! ### `_fix_bias_shape` (lines 205-216) and the node loop's previous-node
lookup (line 117) -/

/-- The guard of `_fix_bias_shape`:
`if op_name == 'Add' and last_op_name == 'Conv'`. -/
def bias_shape_trigger (op_name last_op_name : String) : Bool :=
  op_name == "Add" && last_op_name == "Conv"

/-- `_fix_bias_shape`: reshape a 1-D bias parameter to `(1, C, 1, 1)`
(`reshape((1, -1, 1, 1))` of a length-`C` buffer) and replace its backing
variable node with one carrying the new shape. -/
def fix_bias_shape (st : State) (op_name last_op_name : String)
    (inputs : List String) : Except PyError State :=
  if bias_shape_trigger op_name last_op_name then
    match inputs with
    | [_, i1] =>
      let bias_name := (dlookup st.renames i1).getD i1
      match dlookup st.params bias_name with
      | none => .error .keyError
      | some bias =>
        if bias.shape.length = 1 then
          let new_shape : Shape := [1, bias.shape.prod, 1, 1]
          .ok { st with
            nodes := dinsert st.nodes bias_name (.var bias_name (some new_shape)),
            params := dinsert st.params bias_name ⟨new_shape⟩ }
        else .error .invalidBiasShape
    | _ => .error .invalidBiasShape
  else .ok st

/-- Python list subscript with negative-index wraparound (`l[i]`):
a negative index counts from the end; an index still out of range after
wraparound is an IndexError (`none`). -/
def pyIdx {α : Type} (l : List α) (i : Int) : Option α :=
  if i < 0 then
    if i + l.length < 0 then none else l.get? (i + l.length).toNat
  else l.get? i.toNat

/-- The `last_op_name` argument the node loop passes to `_fix_bias_shape`:
`graph.node[idx - 1].op_type` (line 117) — Python indexing, so at `idx = 0`
this reads the LAST node of the graph. -/
def loop_prev_op (nodes : List NodeProto) (idx : Nat) : Option String :=
  (pyIdx nodes ((idx : Int) - 1)).map NodeProto.op_type

/-! ### `_fix_gemm` (lines 137-150) -/

/-- Python `float(x)` on the attribute values the importer produces: floats,
ints and booleans convert; tuples raise TypeError. (`float` of a numeric
string also parses in Python, but no attribute reaching `_fix_gemm` is a
string; it is mapped to `typeError` as out of the embedding's scope.) -/
def pyFloat : AttrValue → Except PyError Rat
  | .float q => .ok q
  | .int i => .ok (i : Rat)
  | .nat n => .ok (n : Rat)
  | .bool b => .ok (if b then 1 else 0)
  | _ => .error .typeError

/-- Python `int(x)`: ints and booleans convert, floats truncate toward zero;
tuples raise TypeError (numeric strings out of scope as in `pyFloat`). -/
def pyInt : AttrValue → Except PyError Int
  | .int i => .ok i
  | .nat n => .ok (n : Int)
  | .bool b => .ok (if b then 1 else 0)
  | .float q => .ok (q.num.tdiv (q.den : Int))
  | _ => .error .typeError

/-- `_fix_gemm`: re-express Gemm as FullyConnected. Transposes input 0 when
`transA` is truthy, input 1 when `transB` is falsy, scales input 0 by
`alpha` and input 2 by `beta`, and takes `num_hidden` from
`self._params[inputs[2].name].shape[0]`. Fewer than 3 inputs raises a raw
IndexError; a non-variable third symbol has an auto-generated name that is
never a parameter key, hence a raw KeyError. -/
def fix_gemm (params : List (String × NDArray)) (op_name : String)
    (inputs : List Sym) (old_attr : AttrMap) :
    Except PyError (String × List Sym × AttrMap) := do
  let alpha ← pyFloat ((dlookup old_attr "alpha").getD (.float 1))
  let beta ← pyFloat ((dlookup old_attr "beta").getD (.float 1))
  let transA ← pyInt ((dlookup old_attr "transA").getD (.int 0))
  let transB ← pyInt ((dlookup old_attr "transB").getD (.int 0))
  match inputs with
  | a :: b :: c :: _ =>
    let a2 := if transA ≠ 0 then Sym.transpose a [1, 0] else a
    let b2 := if transB = 0 then Sym.transpose b [1, 0] else b
    match (sym_name c).bind (dlookup params) with
    | none => .error .keyError
    | some bias =>
      match bias.shape with
      | [] => .error .indexError
      | h :: _ =>
        .ok (op_name, [Sym.mulScalar alpha a2, b2, Sym.mulScalar beta c],
          [("num_hidden", AttrValue.nat h)])
  | _ => .error .indexError

/-! ### Graph ingestion (`from_onnx`, lines 87-104) -/

/-- Python `str.strip()`: drop leading and trailing whitespace characters. -/
def pyStrip (s : String) : String :=
  ⟨((s.data.dropWhile Char.isWhitespace).reverse.dropWhile
    Char.isWhitespace).reverse⟩

/-- The initializer loop (lines 87-90): a blank name (`not name.strip()`)
raises ValueError, otherwise `_parse_array` decodes the tensor (its shape is
`tensor_proto.dims`) into the Parameter Registry under its original name. -/
def ingest_tensors : State → List TensorProto → Except PyError State
  | st, [] => .ok st
  | st, t :: rest =>
    if pyStrip t.name = "" then .error .invalidTensorName
    else ingest_tensors { st with params := dinsert st.params t.name ⟨t.dims⟩ } rest

/-- `'input_{}'.format(n)`. -/
def mk_input_id (n : Nat) : String := "input_" ++ toString n

/-- `'param_{}'.format(n)`. -/
def mk_param_id (n : Nat) : String := "param_" ++ toString n

/-- One iteration of the graph-input loop (lines 92-104): an input whose name
is currently a parameter is renamed to the next `param_N` (the parameter
entry moves to the new key, a shaped variable node is created); otherwise it
gets the next `input_N` and a shapeless variable node. -/
def ingest_input (st : State) (i : ValueInfo) : State :=
  match dlookup st.params i.name with
  | some v =>
    let name_param := mk_param_id st.num_param
    { st with
      num_param := st.num_param + 1,
      params := dinsert (dpop st.params i.name) name_param v,
      nodes := dinsert st.nodes name_param (.var name_param (some v.shape)),
      renames := dinsert st.renames i.name name_param }
  | none =>
    let name_input := mk_input_id st.num_input
    { st with
      num_input := st.num_input + 1,
      nodes := dinsert st.nodes name_input (.var name_input none),
      renames := dinsert st.renames i.name name_input }

/-- The graph-input loop. -/
def ingest_inputs (st : State) (l : List ValueInfo) : State :=
  l.foldl ingest_input st

/-! ### Canonical-identifier bookkeeping (for the density invariant) -/

/-- Does the string start with "input_"? (character-level, 6 characters) -/
def is_input_id (s : String) : Bool := s.data.take 6 == "input_".data

/-- Does the string start with "param_"? -/
def is_param_id (s : String) : Bool := s.data.take 6 == "param_".data

/-- The values of the Canonical Identifier Map, in insertion order. -/
def rename_values (st : State) : List String := st.renames.map Prod.snd

/-- The keys of the Canonical Identifier Map, in insertion order. -/
def rename_keys (st : State) : List String := st.renames.map Prod.fst

/-- Density of the recorded canonical identifiers: the `input_*` values are
exactly `input_0, ..., input_(num_input - 1)` in order, the `param_*` values
exactly `param_0, ..., param_(num_param - 1)` in order, and no foreign name
occurs twice as a key. -/
def dense_ids (st : State) : Prop :=
  (rename_values st).filter (fun s => is_input_id s) =
    (List.range st.num_input).map mk_input_id ∧
  (rename_values st).filter (fun s => is_param_id s) =
    (List.range st.num_param).map mk_param_id ∧
  (rename_keys st).Nodup

instance (st : State) : Decidable (dense_ids st) := by
  unfold dense_ids; infer_instance

/-- How many of the six typed fields {float, int, string, float-list,
int-list, string-list} of an `AttributeProto` are populated. -/
def num_typed_fields (a : AttributeProto) : Nat :=
  (if a.f.isSome then 1 else 0) + (if a.i.isSome then 1 else 0) +
  (if a.s.isSome then 1 else 0) + (if a.floats.isEmpty then 0 else 1) +
  (if a.ints.isEmpty then 0 else 1) + (if a.strings.isEmpty then 0 else 1)

/-- The canonical identifier an input receives in `ingest_input`
(`param_(num_param)` when its name currently denotes a parameter, else
`input_(num_input)`). -/
def rename_of (st : State) (i : ValueInfo) : String :=
  match dlookup st.params i.name with
  | some _ => mk_param_id st.num_param
  | none => mk_input_id st.num_input

/-! ### Concrete inputs used by witnesses and counterexamples -/

/-- An attribute with both the scalar float and scalar int fields populated
(a malformed proto; protobuf `HasField` reports both). -/
def attr_two_scalars : AttributeProto := { name := "x", f := some 1, i := some 2 }

/-- An attribute with a scalar int and a nonempty int-list populated. -/
def attr_scalar_and_list : AttributeProto := { name := "x", i := some 2, ints := [7] }

/-- An Add node (used to exercise the previous-node lookup at index 0). -/
def add_node : NodeProto := ⟨"Add", "", ["x", "b"], ["y"], []⟩

/-- A Conv node placed last in the node list. -/
def conv_node : NodeProto := ⟨"Conv", "", ["d", "w"], ["c"], []⟩

end OnnxMxnet

namespace OnnxMxnet

/-! ## Dictionary lemmas -/

theorem dlookup_eq_none_iff {β : Type} (d : List (String × β)) (k : String) :
    dlookup d k = none ↔ k ∉ d.map Prod.fst := by
  induction d with
  | nil => simp [dlookup]
  | cons p rest ih =>
    obtain ⟨k1, v⟩ := p
    by_cases h : k1 = k <;> simp [dlookup, h, ih, Ne.symm]

theorem dinsert_eq_append {β : Type} (d : List (String × β)) (k : String) (v : β)
    (h : dlookup d k = none) : dinsert d k v = d ++ [(k, v)] := by
  induction d with
  | nil => rfl
  | cons p rest ih =>
    obtain ⟨k1, v1⟩ := p
    by_cases hk : k1 = k
    · simp [dlookup, hk] at h
    · simp only [dlookup, hk, if_false] at h
      simp [dinsert, hk, ih h]

theorem dlookup_append_left_none {β : Type} (d1 d2 : List (String × β)) (k : String)
    (h : dlookup d1 k = none) : dlookup (d1 ++ d2) k = dlookup d2 k := by
  induction d1 with
  | nil => rfl
  | cons p rest ih =>
    obtain ⟨k1, v1⟩ := p
    by_cases hk : k1 = k
    · simp [dlookup, hk] at h
    · simp only [dlookup, hk, if_false] at h
      simp only [List.cons_append, dlookup, hk, if_false]
      exact ih h

theorem dcontains_dinsert {β : Type} (d : List (String × β)) (k : String) (v : β) :
    dcontains (dinsert d k v) k = true := by
  induction d with
  | nil => simp [dinsert, dcontains, dlookup]
  | cons p rest ih =>
    obtain ⟨k1, v1⟩ := p
    by_cases hk : k1 = k
    · simp [dinsert, dcontains, dlookup, hk]
    · simp [dinsert, dcontains, dlookup, hk] at ih ⊢
      exact ih

/-! ## Claim theorems -/

/-- C6: for every node whose translated operator is in the
convolution/deconvolution/fully-connected family, `_fix_bias` sets the
`no_bias` attribute to false when the node has exactly 3 inputs, to true when
it has exactly 2, and fails with `UnexpectedInputArity` for any other input
count; for operators outside the family the attribute mapping is returned
unchanged. -/
theorem c6_fix_bias (op : String) (attrs : AttrMap) (n : Nat) :
    (op ∈ conv_family →
      (n = 3 → fix_bias op attrs n = .ok (dinsert attrs "no_bias" (.bool false))) ∧
      (n = 2 → fix_bias op attrs n = .ok (dinsert attrs "no_bias" (.bool true))) ∧
      (n ≠ 3 → n ≠ 2 → fix_bias op attrs n = .error .unexpectedInputArity)) ∧
    (op ∉ conv_family → fix_bias op attrs n = .ok attrs) := by
  refine ⟨fun hop => ⟨fun h3 => ?_, fun h2 => ?_, fun h3 h2 => ?_⟩, fun hop => ?_⟩
  · simp [fix_bias, hop, h3]
  · simp [fix_bias, hop, h2]
  · simp [fix_bias, hop, h3, h2]
  · simp [fix_bias, hop]

/-- C6 witness: a Convolution node with 3 inputs gets `no_bias = false`; a
non-family operator passes its attributes through unchanged. -/
theorem c6_fix_bias_witness :
    fix_bias "Convolution" [] 3 = .ok [("no_bias", AttrValue.bool false)] ∧
    fix_bias "Relu" [] 5 = .ok [] := by
  exact ⟨((c6_fix_bias "Convolution" [] 3).1 (by decide)).1 rfl,
    (c6_fix_bias "Relu" [] 5).2 (by decide)⟩

/-- C8: `_fix_outputs` on a Dropout node fails with `UnexpectedOutputArity`
unless the node declares exactly 2 outputs, and otherwise returns only the
first declared output identifier; output lists of non-Dropout nodes pass
through unchanged. -/
theorem c8_fix_outputs (op : String) (outputs : List String) :
    (op = "Dropout" →
      (outputs.length ≠ 2 →
        fix_outputs op outputs = .error .unexpectedOutputArity) ∧
      (∀ y m, outputs = [y, m] → fix_outputs op outputs = .ok [y])) ∧
    (op ≠ "Dropout" → fix_outputs op outputs = .ok outputs) := by
  refine ⟨fun hop => ⟨fun hlen => ?_, fun y m hout => ?_⟩, fun hop => ?_⟩ <;>
    simp [fix_outputs, hop]
  · exact hlen
  · subst hout; rfl

/-- C8 witness: a Dropout node declaring outputs `["y", "mask"]` registers
exactly `["y"]`; a non-Dropout output list passes through. -/
theorem c8_fix_outputs_witness :
    fix_outputs "Dropout" ["y", "mask"] = .ok ["y"] ∧
    fix_outputs "Relu" ["a", "b", "c"] = .ok ["a", "b", "c"] := by
  exact ⟨((c8_fix_outputs "Dropout" ["y", "mask"]).1 rfl).2 "y" "mask" rfl,
    (c8_fix_outputs "Relu" ["a", "b", "c"]).2 (by decide)⟩

/-- C9: for every operator name in the identity set (that resolves to an
identically-named target operator) and every attribute mapping,
`_convert_operator` returns the operator name and the attribute mapping
unchanged. -/
theorem c9_convert_identity (mxSym identity_list : List String)
    (convert_map : List (String × ConvertFn)) (op_name : String) (attrs : AttrMap)
    (hid : op_name ∈ identity_list) (hsym : op_name ∈ mxSym) :
    convert_operator mxSym identity_list convert_map op_name attrs =
      .ok (op_name, attrs) := by
  simp [convert_operator, hid, hsym]

/-- C9 witness: `translate("Relu", {}) = ("Relu", {})`. -/
theorem c9_convert_identity_witness :
    convert_operator ["Relu"] ["Relu"] [] "Relu" [] = .ok ("Relu", []) :=
  c9_convert_identity ["Relu"] ["Relu"] [] "Relu" [] (by decide) (by decide)

/-- C7: for every family node whose second input resolves (through the
Canonical Identifier Map) to a parameter of rank at least 2, `_fix_channels`
sets `num_hidden` (fully-connected) or `num_filter` (otherwise) to the first
dimension of that parameter's shape. -/
theorem c7_fix_channels (renames : List (String × String))
    (params : List (String × NDArray)) (op : String) (attrs : AttrMap)
    (inputs : List String) (i1 wn : String) (w : NDArray) (c d : Nat) (rest : Shape)
    (hop : op ∈ conv_family) (hi : inputs.get? 1 = some i1)
    (hr : dlookup renames i1 = some wn) (hp : dlookup params wn = some w)
    (hw : w.shape = c :: d :: rest) :
    fix_channels renames params op attrs inputs =
      .ok (dinsert attrs
        (if op = "FullyConnected" then "num_hidden" else "num_filter")
        (.nat c)) := by
  simp only [List.get?_eq_getElem?] at hi
  simp [fix_channels, hop, hi, hr, hp, hw]

/-- C7 witness: a FullyConnected node with weight parameter of shape (10, 5)
yields `num_hidden = 10`. -/
theorem c7_fix_channels_witness :
    fix_channels [("W", "param_0")] [("param_0", ⟨[10, 5]⟩)]
      "FullyConnected" [] ["x", "W"] = .ok [("num_hidden", AttrValue.nat 10)] := by
  have h := c7_fix_channels [("W", "param_0")] [("param_0", ⟨[10, 5]⟩)]
    "FullyConnected" [] ["x", "W"] "W" "param_0" ⟨[10, 5]⟩ 10 5 []
    (by decide) rfl rfl rfl rfl
  exact h

/-- C1 counterexample: with a Convolution node whose second input identifier
is not a key of the Canonical Identifier Map, `_fix_channels` raises a raw
KeyError (from `self._renames[inputs[1]]`), not the spec's
`MissingWeightParameter`. -/
theorem c1_counterexample :
    fix_channels [] [] "Convolution" [] ["x", "w"] = .error .keyError ∧
    fix_channels [] [] "Convolution" [] ["x", "w"] ≠
      .error .missingWeightParameter := by
  refine ⟨rfl, fun h => ?_⟩
  rw [show fix_channels [] [] "Convolution" [] ["x", "w"] =
    Except.error PyError.keyError from rfl] at h
  exact PyError.noConfusion (Except.error.inj h)

/-- C1 amended: for a family node, `_fix_channels` raises a raw KeyError when
the second input identifier is not a key of the Canonical Identifier Map;
fails with `MissingWeightParameter` when it is a key whose canonical name has
no Parameter Registry entry; and when it resolves to a parameter, fails with
`InvalidWeightShape` if the parameter's rank is below 2. -/
theorem c1_fix_channels_errors (renames : List (String × String))
    (params : List (String × NDArray)) (op : String) (attrs : AttrMap)
    (inputs : List String) (i1 : String)
    (hop : op ∈ conv_family) (hi : inputs.get? 1 = some i1) :
    (dlookup renames i1 = none →
      fix_channels renames params op attrs inputs = .error .keyError) ∧
    (∀ wn, dlookup renames i1 = some wn → dlookup params wn = none →
      fix_channels renames params op attrs inputs =
        .error .missingWeightParameter) ∧
    (∀ wn w, dlookup renames i1 = some wn → dlookup params wn = some w →
      w.shape.length < 2 →
      fix_channels renames params op attrs inputs =
        .error .invalidWeightShape) := by
  simp only [List.get?_eq_getElem?] at hi
  refine ⟨fun hr => ?_, fun wn hr hp => ?_, fun wn w hr hp hlen => ?_⟩
  · simp [fix_channels, hop, hi, hr]
  · simp [fix_channels, hop, hi, hr, hp]
  · rcases hsh : w.shape with _ | ⟨c1, _ | ⟨c2, rest2⟩⟩
    · simp [fix_channels, hop, hi, hr, hp, hsh]
    · simp [fix_channels, hop, hi, hr, hp, hsh]
    · rw [hsh] at hlen
      simp at hlen
      omega

/-- C1 amended witness: a Convolution whose second input maps to `param_0`
with no Parameter Registry entry fails with `MissingWeightParameter`. -/
theorem c1_fix_channels_errors_witness :
    fix_channels [("w", "param_0")] [] "Convolution" [] ["x", "w"] =
      .error .missingWeightParameter :=
  (c1_fix_channels_errors [("w", "param_0")] [] "Convolution" [] ["x", "w"] "w"
    (by decide) rfl).2.1 "param_0" rfl rfl

theorem except_bind_ok {ε α β : Type} (x : α) (f : α → Except ε β) :
    (Except.ok x >>= f) = f x := rfl

theorem except_bind_error {ε α β : Type} (e : ε) (f : α → Except ε β) :
    ((Except.error e : Except ε α) >>= f) = Except.error e := rfl

theorem dcontains_scalar_step (attrs : AttrMap) (n : String) (v : Option AttrValue)
    (h : dcontains attrs n = true) : dcontains (scalar_step attrs n v) n = true := by
  cases v with
  | none => exact h
  | some x => exact dcontains_dinsert attrs n x

theorem dcontains_after_scalars (a : AttributeProto)
    (hs : a.f.isSome = true ∨ a.i.isSome = true ∨ a.s.isSome = true) :
    dcontains (scalar_step (scalar_step (scalar_step [] a.name
      (a.f.map AttrValue.float)) a.name (a.i.map AttrValue.int)) a.name
      (a.s.map AttrValue.str)) a.name = true := by
  rcases hs with hf | hi | hst
  · obtain ⟨x, hx⟩ := Option.isSome_iff_exists.mp hf
    apply dcontains_scalar_step
    apply dcontains_scalar_step
    rw [hx]
    exact dcontains_dinsert [] a.name (AttrValue.float x)
  · obtain ⟨x, hx⟩ := Option.isSome_iff_exists.mp hi
    apply dcontains_scalar_step
    rw [hx]
    exact dcontains_dinsert _ a.name (AttrValue.int x)
  · obtain ⟨x, hx⟩ := Option.isSome_iff_exists.mp hst
    rw [hx]
    exact dcontains_dinsert _ a.name (AttrValue.str x)

/-- C2 counterexample: an attribute with BOTH the scalar float and scalar int
fields populated (two typed fields) is parsed WITHOUT failure — the int value
silently overwrites the float value, refuting "parsing fails whenever more
than one typed field is populated". -/
theorem c2_counterexample :
    2 ≤ num_typed_fields attr_two_scalars ∧
    parse_attr [attr_two_scalars] = .ok [("x", AttrValue.int 2)] := by
  exact ⟨by decide, rfl⟩

/-- C2 amended: `_parse_attr` fails with `DuplicateAttributeType` when a
nonempty list field is populated while the name already has a value (in
particular whenever a scalar field and a list field are both populated);
two populated SCALAR fields never fail — the last-checked one (string over
int over float) silently wins. -/
theorem c2_parse_attr_duplicate (a : AttributeProto)
    (hs : a.f.isSome = true ∨ a.i.isSome = true ∨ a.s.isSome = true)
    (hl : a.floats ≠ [] ∨ a.ints ≠ [] ∨ a.strings ≠ []) :
    parse_attr [a] = .error .duplicateAttributeType := by
  have hc := dcontains_after_scalars a hs
  have hone : parse_attr_one [] a = .error .duplicateAttributeType := by
    rcases hfl : a.floats with _ | ⟨x, xs⟩
    · rcases hin : a.ints with _ | ⟨y, ys⟩
      · have hstr : a.strings ≠ [] := by
          rcases hl with h | h | h
          · exact absurd hfl h
          · exact absurd hin h
          · exact h
        rcases hst : a.strings with _ | ⟨z, zs⟩
        · exact absurd hst hstr
        · simp [parse_attr_one, hfl, hin, hst, list_step, hc,
            except_bind_ok, except_bind_error]
      · simp [parse_attr_one, hfl, hin, list_step, hc,
          except_bind_ok, except_bind_error]
    · simp [parse_attr_one, hfl, list_step, hc,
        except_bind_ok, except_bind_error]
  simp [parse_attr, List.foldlM, hone, except_bind_error]

/-- C2 amended witness: an attribute with scalar int 2 and int-list `[7]`
both populated fails with `DuplicateAttributeType`. -/
theorem c2_parse_attr_duplicate_witness :
    parse_attr [attr_scalar_and_list] = .error .duplicateAttributeType :=
  c2_parse_attr_duplicate attr_scalar_and_list (Or.inr (Or.inl rfl))
    (Or.inr (Or.inl (by decide)))

/-- C3: `_fix_gemm` transposes input A iff `transA` is nonzero, transposes
input B iff `transB` is zero, scales input A by `alpha` and input C by
`beta` (defaults `alpha = 1`, `beta = 1`, `transA = transB = 0` are supplied
by `.get` when the attributes are absent), and sets `num_hidden` to the
leading dimension of the bias parameter's shape. -/
theorem c3_fix_gemm (params : List (String × NDArray)) (a b : Sym) (nm : String)
    (shp : Option Shape) (old_attr : AttrMap) (al be : Rat) (tA tB : Int)
    (bias : NDArray) (hd : Nat) (rest : Shape)
    (ha : pyFloat ((dlookup old_attr "alpha").getD (.float 1)) = .ok al)
    (hb : pyFloat ((dlookup old_attr "beta").getD (.float 1)) = .ok be)
    (hta : pyInt ((dlookup old_attr "transA").getD (.int 0)) = .ok tA)
    (htb : pyInt ((dlookup old_attr "transB").getD (.int 0)) = .ok tB)
    (hp : dlookup params nm = some bias) (hsh : bias.shape = hd :: rest) :
    fix_gemm params "FullyConnected" [a, b, .var nm shp] old_attr =
      .ok ("FullyConnected",
        [Sym.mulScalar al (if tA ≠ 0 then Sym.transpose a [1, 0] else a),
         if tB = 0 then Sym.transpose b [1, 0] else b,
         Sym.mulScalar be (.var nm shp)],
        [("num_hidden", AttrValue.nat hd)]) := by
  simp [fix_gemm, ha, hb, hta, htb, sym_name, hp, hsh,
    except_bind_ok, except_bind_error]

/-- C3 witness: `alpha = 2.0` with `beta`, `transA`, `transB` absent
(defaults 1.0, 0, 0) and a bias parameter of shape (8,) yields hidden-units
8, a first input scaled by 2, a transposed second input, and a third input
scaled by 1. -/
theorem c3_fix_gemm_witness :
    fix_gemm [("param_0", ⟨[8]⟩)] "FullyConnected"
      [Sym.var "input_0" none, Sym.var "param_1" none, Sym.var "param_0" (some [8])]
      [("alpha", .float 2)] =
    .ok ("FullyConnected",
      [Sym.mulScalar 2 (Sym.var "input_0" none),
       Sym.transpose (Sym.var "param_1" none) [1, 0],
       Sym.mulScalar 1 (Sym.var "param_0" (some [8]))],
      [("num_hidden", AttrValue.nat 8)]) := by
  have h := c3_fix_gemm [("param_0", ⟨[8]⟩)] (Sym.var "input_0" none)
    (Sym.var "param_1" none) "param_0" (some [8]) [("alpha", .float 2)]
    2 1 0 0 ⟨[8]⟩ 8 [] rfl rfl rfl rfl rfl rfl
  simpa using h

/-- C4: when an Add immediately follows (in foreign node order) a Conv,
`_fix_bias_shape` reshapes the resolved rank-1 bias parameter from `(C,)` to
`(1, C, 1, 1)` and replaces its backing variable node with one carrying the
new shape; it fails with `InvalidBiasShape` when the add does not have
exactly 2 inputs, or when the resolved bias parameter's rank is not 1. -/
theorem c4_fix_bias_shape (st : State) (inputs : List String) :
    (inputs.length ≠ 2 →
      fix_bias_shape st "Add" "Conv" inputs = .error .invalidBiasShape) ∧
    (∀ i0 i1 bias c, inputs = [i0, i1] →
      dlookup st.params ((dlookup st.renames i1).getD i1) = some bias →
      bias.shape = [c] →
      fix_bias_shape st "Add" "Conv" inputs = .ok { st with
        nodes := dinsert st.nodes ((dlookup st.renames i1).getD i1)
          (.var ((dlookup st.renames i1).getD i1) (some [1, c, 1, 1])),
        params := dinsert st.params ((dlookup st.renames i1).getD i1)
          ⟨[1, c, 1, 1]⟩ }) ∧
    (∀ i0 i1 bias, inputs = [i0, i1] →
      dlookup st.params ((dlookup st.renames i1).getD i1) = some bias →
      bias.shape.length ≠ 1 →
      fix_bias_shape st "Add" "Conv" inputs = .error .invalidBiasShape) := by
  refine ⟨fun hlen => ?_, fun i0 i1 bias c hin hp hsh => ?_, fun i0 i1 bias hin hp hsh => ?_⟩
  · rcases inputs with _ | ⟨x, _ | ⟨y, _ | ⟨z, rest⟩⟩⟩
    · rfl
    · rfl
    · simp at hlen
    · rfl
  · subst hin
    simp [fix_bias_shape, bias_shape_trigger, hp, hsh]
  · subst hin
    simp [fix_bias_shape, bias_shape_trigger, hp, hsh]

/-- C4 witness: a bias parameter of shape (16,) resolved by an Add-after-Conv
becomes shape (1, 16, 1, 1) in both registries; a 3-input Add fails with
`InvalidBiasShape`. -/
theorem c4_fix_bias_shape_witness :
    fix_bias_shape ⟨[], [("b", ⟨[16]⟩)], [], 0, 0⟩ "Add" "Conv" ["x", "b"] =
      .ok ⟨[("b", Sym.var "b" (some [1, 16, 1, 1]))], [("b", ⟨[1, 16, 1, 1]⟩)],
        [], 0, 0⟩ ∧
    fix_bias_shape ⟨[], [("b", ⟨[16]⟩)], [], 0, 0⟩ "Add" "Conv" ["x", "b", "z"] =
      .error .invalidBiasShape := by
  constructor
  · exact ((c4_fix_bias_shape ⟨[], [("b", ⟨[16]⟩)], [], 0, 0⟩ ["x", "b"]).2.1
      "x" "b" ⟨[16]⟩ 16 rfl rfl rfl)
  · exact (c4_fix_bias_shape ⟨[], [("b", ⟨[16]⟩)], [], 0, 0⟩ ["x", "b", "z"]).1
      (by decide)

/-- C5: the node loop hands `_fix_bias_shape` the operator of
`graph.node[idx - 1]`, which at index 0 is the LAST node by Python negative
indexing: for every graph whose first node is an Add and whose final node is
a Conv, the previous-operator lookup at index 0 yields "Conv" and the
bias-reshape trigger condition holds for the first node even though no node
precedes it. -/
theorem c5_prev_node_wraps (nodes : List NodeProto) (h : nodes ≠ [])
    (hA : (nodes.head h).op_type = "Add")
    (hC : (nodes.getLast h).op_type = "Conv") :
    loop_prev_op nodes 0 = some "Conv" ∧
    bias_shape_trigger (nodes.head h).op_type
      ((loop_prev_op nodes 0).getD "") = true := by
  have hlen : 0 < nodes.length := List.length_pos.mpr h
  have h1 : loop_prev_op nodes 0 = some ((nodes.getLast h).op_type) := by
    unfold loop_prev_op pyIdx
    have e0 : ((0 : Nat) : Int) - 1 = -1 := by norm_num
    rw [e0, if_pos (by norm_num), if_neg (by omega)]
    have e1 : ((-1 : Int) + nodes.length).toNat = nodes.length - 1 := by omega
    rw [e1, List.get?_eq_getElem?, ← List.getLast?_eq_getElem?,
      List.getLast?_eq_getLast_of_ne_nil h]
    rfl
  refine ⟨h1.trans (by rw [hC]), ?_⟩
  rw [hA, h1, hC]
  decide

/-- C5 witness: a two-node graph `[Add, Conv]` — translating the Add at index
0 consults the trailing Conv as its "previous" node and triggers the bias
reshape fix-up. -/
theorem c5_prev_node_wraps_witness :
    loop_prev_op [add_node, conv_node] 0 = some "Conv" ∧
    bias_shape_trigger "Add" ((loop_prev_op [add_node, conv_node] 0).getD "") =
      true := by
  have h := c5_prev_node_wraps [add_node, conv_node] (List.cons_ne_nil _ _) rfl rfl
  exact ⟨h.1, h.2⟩

/-! ## Canonical-identifier density (C10) -/

theorem string_data_append (a b : String) : (a ++ b).data = a.data ++ b.data := by
  cases a
  cases b
  rfl

theorem is_input_id_mk_input (n : Nat) : is_input_id (mk_input_id n) = true := by
  unfold is_input_id mk_input_id
  rw [string_data_append,
    List.take_left' (show "input_".data.length = 6 from rfl)]
  exact beq_self_eq_true _

theorem is_param_id_mk_input (n : Nat) : is_param_id (mk_input_id n) = false := by
  unfold is_param_id mk_input_id
  rw [string_data_append,
    List.take_left' (show "input_".data.length = 6 from rfl)]
  decide

theorem is_param_id_mk_param (n : Nat) : is_param_id (mk_param_id n) = true := by
  unfold is_param_id mk_param_id
  rw [string_data_append,
    List.take_left' (show "param_".data.length = 6 from rfl)]
  exact beq_self_eq_true _

theorem is_input_id_mk_param (n : Nat) : is_input_id (mk_param_id n) = false := by
  unfold is_input_id mk_param_id
  rw [string_data_append,
    List.take_left' (show "param_".data.length = 6 from rfl)]
  decide

theorem ingest_input_dense (st : State) (i : ValueInfo)
    (hd : dense_ids st) (hnew : dlookup st.renames i.name = none) :
    dense_ids (ingest_input st i) ∧
    (ingest_input st i).renames = st.renames ++ [(i.name, rename_of st i)] := by
  obtain ⟨h1, h2, h3⟩ := hd
  have hkey : i.name ∉ st.renames.map Prod.fst :=
    (dlookup_eq_none_iff st.renames i.name).mp hnew
  cases hp : dlookup st.params i.name with
  | none =>
    have hre : (ingest_input st i).renames =
        st.renames ++ [(i.name, mk_input_id st.num_input)] := by
      simp only [ingest_input, hp]
      exact dinsert_eq_append st.renames i.name _ hnew
    have hro : rename_of st i = mk_input_id st.num_input := by
      simp [rename_of, hp]
    refine ⟨⟨?_, ?_, ?_⟩, by rw [hre, hro]⟩
    · show ((ingest_input st i).renames.map Prod.snd).filter _ = _
      rw [hre]
      have hni : (ingest_input st i).num_input = st.num_input + 1 := by
        simp [ingest_input, hp]
      rw [hni, List.map_append, List.filter_append]
      simp only [List.map_cons, List.map_nil, List.filter,
        is_input_id_mk_input]
      rw [List.range_succ, List.map_append]
      simp only [rename_values] at h1
      rw [h1]
      simp
    · show ((ingest_input st i).renames.map Prod.snd).filter _ = _
      rw [hre]
      have hnp : (ingest_input st i).num_param = st.num_param := by
        simp [ingest_input, hp]
      rw [hnp, List.map_append, List.filter_append]
      simp only [List.map_cons, List.map_nil, List.filter,
        is_param_id_mk_input]
      simpa using h2
    · show ((ingest_input st i).renames.map Prod.fst).Nodup
      rw [hre, List.map_append]
      simp only [List.map_cons, List.map_nil]
      rw [List.nodup_append]
      exact ⟨h3, List.nodup_singleton _, by simpa using hkey⟩
  | some v =>
    have hre : (ingest_input st i).renames =
        st.renames ++ [(i.name, mk_param_id st.num_param)] := by
      simp only [ingest_input, hp]
      exact dinsert_eq_append st.renames i.name _ hnew
    have hro : rename_of st i = mk_param_id st.num_param := by
      simp [rename_of, hp]
    refine ⟨⟨?_, ?_, ?_⟩, by rw [hre, hro]⟩
    · show ((ingest_input st i).renames.map Prod.snd).filter _ = _
      rw [hre]
      have hni : (ingest_input st i).num_input = st.num_input := by
        simp [ingest_input, hp]
      rw [hni, List.map_append, List.filter_append]
      simp only [List.map_cons, List.map_nil, List.filter,
        is_input_id_mk_param]
      simpa using h1
    · show ((ingest_input st i).renames.map Prod.snd).filter _ = _
      rw [hre]
      have hnp : (ingest_input st i).num_param = st.num_param + 1 := by
        simp [ingest_input, hp]
      rw [hnp, List.map_append, List.filter_append]
      simp only [List.map_cons, List.map_nil, List.filter,
        is_param_id_mk_param]
      rw [List.range_succ, List.map_append]
      simp only [rename_values] at h2
      rw [h2]
      simp
    · show ((ingest_input st i).renames.map Prod.fst).Nodup
      rw [hre, List.map_append]
      simp only [List.map_cons, List.map_nil]
      rw [List.nodup_append]
      exact ⟨h3, List.nodup_singleton _, by simpa using hkey⟩

theorem ingest_inputs_dense : ∀ (l : List ValueInfo) (st : State),
    dense_ids st →
    (∀ i ∈ l, dlookup st.renames i.name = none) →
    (l.map ValueInfo.name).Nodup →
    dense_ids (ingest_inputs st l) := by
  intro l
  induction l with
  | nil => exact fun st hd _ _ => hd
  | cons a rest ih =>
    intro st hd hnone hnd
    have hstep := ingest_input_dense st a hd (hnone a (List.mem_cons_self a rest))
    have hrest : ∀ i ∈ rest, dlookup (ingest_input st a).renames i.name = none := by
      intro i hi
      rw [hstep.2,
        dlookup_append_left_none _ _ _ (hnone i (List.mem_cons_of_mem a hi))]
      have hne : a.name ≠ i.name := by
        have := (List.nodup_cons.mp hnd).1
        intro he
        exact this (he ▸ List.mem_map_of_mem ValueInfo.name hi)
      simp [dlookup, hne]
    exact ih (ingest_input st a) hstep.1 hrest (List.nodup_cons.mp hnd).2

theorem ingest_tensors_frame : ∀ (l : List TensorProto) (st st2 : State),
    ingest_tensors st l = .ok st2 →
    st2.renames = st.renames ∧ st2.num_input = st.num_input ∧
      st2.num_param = st.num_param := by
  intro l
  induction l with
  | nil =>
    intro st st2 h
    cases h
    exact ⟨rfl, rfl, rfl⟩
  | cons t rest ih =>
    intro st st2 h
    by_cases ht : pyStrip t.name = ""
    · rw [ingest_tensors, if_pos ht] at h
      cases h
    · rw [ingest_tensors, if_neg ht] at h
      obtain ⟨e1, e2, e3⟩ :=
        ih { st with params := dinsert st.params t.name ⟨t.dims⟩ } st2 h
      exact ⟨e1, e2, e3⟩

/-- C10 counterexample: a graph whose input list repeats the name "a" —
allowed by the claim's "any foreign graph" — yields a Canonical Identifier
Map recording only `input_1`: `input_0` was overwritten, so the recorded
input identifiers are not dense from 0 (0 is missing while `num_input = 2`),
refuting the claim for arbitrary graphs. -/
theorem c10_counterexample :
    (rename_values (ingest_inputs init_state [⟨"a"⟩, ⟨"a"⟩])).filter
      (fun s => is_input_id s) = ["input_1"] ∧
    (ingest_inputs init_state [⟨"a"⟩, ⟨"a"⟩]).num_input = 2 ∧
    ¬ dense_ids (ingest_inputs init_state [⟨"a"⟩, ⟨"a"⟩]) := by
  refine ⟨rfl, rfl, ?_⟩
  decide

/-- C10 amended: after ingesting the initializers and then the inputs of any
foreign graph whose declared input names are pairwise distinct, the
canonical identifiers recorded in the Canonical Identifier Map are exactly
`input_0 ... input_(num_input - 1)` and `param_0 ... param_(num_param - 1)`
in order (dense from 0, no gaps or duplicates, separately per category), and
every foreign name appears at most once as a key. -/
theorem c10_dense_ids (g : GraphProto) (st0 : State)
    (h0 : ingest_tensors init_state g.inits = .ok st0)
    (hnd : (g.input.map ValueInfo.name).Nodup) :
    dense_ids (ingest_inputs st0 g.input) := by
  obtain ⟨hr, hni, hnp⟩ := ingest_tensors_frame g.inits init_state st0 h0
  apply ingest_inputs_dense g.input st0 _ _ hnd
  · refine ⟨?_, ?_, ?_⟩ <;>
      simp [dense_ids, rename_values, rename_keys, hr, hni, hnp, init_state]
  · intro i _
    rw [hr]
    rfl

/-- C10 witness: a graph with initializer "w" and inputs ["w", "x"] —
ingestion records exactly `param_0` for "w" and `input_0` for "x", densely
per category with no duplicate keys. -/
theorem c10_dense_ids_witness :
    dense_ids (ingest_inputs ⟨[], [("w", ⟨[3, 2]⟩)], [], 0, 0⟩ [⟨"w"⟩, ⟨"x"⟩]) := by
  have h := c10_dense_ids ⟨[⟨"w", [3, 2]⟩], [⟨"w"⟩, ⟨"x"⟩], [], []⟩
    ⟨[], [("w", ⟨[3, 2]⟩)], [], 0, 0⟩ (by decide) (by decide)
  exact h

end OnnxMxnet
